import Mathlib

/-!
Verification of the Oracle-db_Graph repository: a shallow embedding in Lean 4
of the SQL-building and control-flow logic of `copy_to_freepdb1.py`,
`main_app/pest_analysis_classes.py` and `main_app/pgx_rest_client.py`,
together with theorems settling the specification's claims about it.

Database and HTTP effects are modelled as explicit traces of actions; the
values bound into statements are modelled as Python values (strings and
integers).  Statements that the code executes through a cursor become
elements of an action list, in program order.
-/

namespace OracleGraph

/-- A Python value passed as a bind parameter to a SQL statement. -/
inductive PyVal
  | s (v : String)
  | i (v : Int)
  deriving DecidableEq

namespace CopyTool

/-!
Embedding of `copy_to_freepdb1.py`.

A run of `copy_table` on one table is modelled as the list of cursor actions
it performs on the destination connection when it returns without raising
(the best-effort `DROP TABLE`, whose own failure is swallowed, is recorded
with its outcome).
-/

/-- One cursor action executed by `copy_to_freepdb1.py`. -/
inductive Act
  | tryExec (sql : String) (ok : Bool)
  | exec (sql : String)
  | execMany (sql : String) (data : List (List PyVal))
  | commit
  deriving DecidableEq

/-- One row of the `user_tab_columns` catalog query result
(`column_name, data_type, data_length, data_precision, nullable`),
already in `ORDER BY column_id` order. -/
structure ColMeta where
  column_name : String
  data_type : String
  data_length : Nat
  data_precision : Option Nat
  nullable : String
  deriving DecidableEq

/-- The source-side inputs of `copy_table`: the table name, the DataFrame
read by `SELECT * FROM table` (its column list and row values), and the
catalog rows returned for the table, ordered by `column_id`. -/
structure SourceTable where
  name : String
  cols : List String
  rows : List (List PyVal)
  catalog : List ColMeta
  deriving DecidableEq

/-- The per-column definition string built by `copy_table`.  Mirrors the
Python exactly, including the truthiness test `if data_precision:` which
treats both `None` and `0` as absent. -/
def colDef (c : ColMeta) : String :=
  let base :=
    if c.data_type = "VARCHAR2" then
      c.column_name ++ " VARCHAR2(" ++ toString c.data_length ++ ")"
    else if c.data_type = "NUMBER" then
      match c.data_precision with
      | some p => if p = 0 then c.column_name ++ " NUMBER"
                  else c.column_name ++ " NUMBER(" ++ toString p ++ ")"
      | none => c.column_name ++ " NUMBER"
    else
      c.column_name ++ " " ++ c.data_type
  if c.nullable = "N" then base ++ " NOT NULL" else base

/-- The `CREATE TABLE` statement text built by `copy_table`. -/
def create_sql (t : SourceTable) : String :=
  "CREATE TABLE " ++ t.name ++ " (" ++
    String.intercalate ", " (t.catalog.map colDef) ++ ")"

/-- The `INSERT` statement text built by `copy_table`: column list from
`df.columns` and one numbered placeholder `:i` per column.  It depends only
on the table name and the column names, never on row values. -/
def insert_sql (t : SourceTable) : String :=
  "INSERT INTO " ++ t.name ++ " (" ++ String.intercalate ", " t.cols ++
    ") VALUES (" ++
    String.intercalate ", "
      ((List.range t.cols.length).map (fun i => ":" ++ toString (i + 1))) ++ ")"

/-- The destination-cursor trace of one non-raising run of `copy_table`:
best-effort drop (`dropOk` records whether the `DROP TABLE` succeeded),
create, then — only when the DataFrame is non-empty — a single
`executemany` whose data is `[tuple(row) for row in df.values]`, followed
by a commit. -/
def copy_table (dropOk : Bool) (t : SourceTable) : List Act :=
  [Act.tryExec ("DROP TABLE " ++ t.name) dropOk,
   Act.exec (create_sql t)] ++
  (if t.rows.length > 0 then
    [Act.execMany (insert_sql t) t.rows, Act.commit]
  else [])

/-- The `(sql, data)` pairs handed to `executemany` in a trace. -/
def execManyBatches (acts : List Act) : List (String × List (List PyVal)) :=
  acts.filterMap fun a =>
    match a with
    | Act.execMany s d => some (s, d)
    | _ => none

/-- The fixed list of tables the `__main__` block copies, in program
order. -/
def tables : List String :=
  ["entities", "countries", "months", "inspections", "target_proxies",
   "country_months", "shipped_in_edges", "is_from_edges",
   "has_weather_edges", "has_inspection_result_edges"]

/-- Observable events of the `__main__` copy loop. -/
inductive LoopEvent
  | attempt (table : String)
  | logError (table : String)
  deriving DecidableEq

/-- The `__main__` copy loop: for each table it attempts `copy_table`;
when the attempt raises (`fails table = true`) the exception is caught,
an error line is printed, and the loop continues with the next table. -/
def copyLoop (fails : String → Bool) : List String → List LoopEvent
  | [] => []
  | t :: ts =>
    (if fails t then [LoopEvent.attempt t, LoopEvent.logError t]
     else [LoopEvent.attempt t]) ++ copyLoop fails ts

/-- The table of an `attempt` event. -/
def attemptOf (e : LoopEvent) : Option String :=
  match e with
  | LoopEvent.attempt t => some t
  | _ => none

end CopyTool

namespace PestDataAnalyzer

/-!
Embedding of `main_app/pest_analysis_classes.py` (class `PestDataAnalyzer`).

A pandas cell is either a number (modelled as an integer: the numeric
columns of this data set hold integer counts and flags), a string, or a
missing value (NaN).
-/

/-- A DataFrame cell. -/
inductive Cell
  | i (n : Int)
  | s (v : String)
  | missing
  deriving DecidableEq

/-- Python `str(...)` of a cell (`str(nan)` renders as "nan"). -/
def pyStr (c : Cell) : String :=
  match c with
  | Cell.i n => toString n
  | Cell.s v => v
  | Cell.missing => "nan"

/-- Python `==` between a cell and a string literal: only a string cell can
compare equal; a number or NaN compares unequal. -/
def cellEqStr (c : Cell) (t : String) : Bool :=
  match c with
  | Cell.s v => v == t
  | _ => false

/-- Python `==` between a cell and an integer literal: only a numeric cell
can compare equal; a string or NaN compares unequal. -/
def cellEqInt (c : Cell) (m : Int) : Bool :=
  match c with
  | Cell.i n => n == m
  | _ => false

/-- Python `int(...)` of a cell: identity on numbers, parse for strings
(`none` models the `ValueError`/`TypeError` raise), raise on NaN. -/
def pyInt (c : Cell) : Option Int :=
  match c with
  | Cell.i n => some n
  | Cell.s v => v.toInt?
  | Cell.missing => none

/-- `pd.to_numeric(col, errors='coerce').fillna(0).astype(int)` on one
cell: numbers kept, parseable strings parsed, everything unparseable or
missing coerced to NaN and then filled with 0. -/
def toNumericFill0 (c : Cell) : Int :=
  match c with
  | Cell.i n => n
  | Cell.s v => (v.toInt?).getD 0
  | Cell.missing => 0

/-- `true` when the cell would be coerced to NaN by
`pd.to_numeric(errors='coerce')` (and hence filled with 0). -/
def cellUnparseable (c : Cell) : Bool :=
  match c with
  | Cell.i _ => false
  | Cell.s v => (v.toInt?).isNone
  | Cell.missing => true

/-- One row of the input CSV, with the columns the code reads. -/
structure RawRow where
  ENTY_ID : Cell
  CTRY_CODE : Cell
  MONTH : Cell
  TARGET_PROXY : Cell
  ENTY_EXAMS_30D : Cell
  ENTY_PESTS_30D : Cell
  ENTY_EXAMS_90D : Cell
  ENTY_PESTS_90D : Cell
  ENTY_EXAMS_1YR : Cell
  ENTY_PESTS_1YR : Cell
  deriving DecidableEq

/-- The repeated-header test of `load_data`:
`df.iloc[0]['TARGET_PROXY'] == 'TP' or str(df.iloc[0]['ENTY_ID']) == 'ENTY_ID'`. -/
def isHeaderRow (r : RawRow) : Bool :=
  cellEqStr r.TARGET_PROXY "TP" || pyStr r.ENTY_ID == "ENTY_ID"

/-- The numeric-column conversion of `load_data` applied to one row: the
seven columns of `numeric_columns` go through
`to_numeric(errors='coerce').fillna(0).astype(int)`; the other columns are
untouched. -/
def convertRow (r : RawRow) : RawRow :=
  { r with
    TARGET_PROXY := Cell.i (toNumericFill0 r.TARGET_PROXY)
    ENTY_EXAMS_30D := Cell.i (toNumericFill0 r.ENTY_EXAMS_30D)
    ENTY_PESTS_30D := Cell.i (toNumericFill0 r.ENTY_PESTS_30D)
    ENTY_EXAMS_90D := Cell.i (toNumericFill0 r.ENTY_EXAMS_90D)
    ENTY_PESTS_90D := Cell.i (toNumericFill0 r.ENTY_PESTS_90D)
    ENTY_EXAMS_1YR := Cell.i (toNumericFill0 r.ENTY_EXAMS_1YR)
    ENTY_PESTS_1YR := Cell.i (toNumericFill0 r.ENTY_PESTS_1YR) }

/-- `load_data` on the rows read from the CSV: `none` models the
`IndexError` that `df.iloc[0]` raises on an empty frame; otherwise the
header row (if detected) is dropped with the index reset, and then the
numeric columns are converted. -/
def load_data (rows : List RawRow) : Option (List RawRow) :=
  match rows with
  | [] => none
  | r :: rs =>
    some ((if isHeaderRow r then rs else r :: rs).map convertRow)

/-- One cursor action executed by the analyzer (a best-effort statement
with its outcome, a parameterized statement, or a commit). -/
inductive DbAct
  | tryExec (sql : String) (ok : Bool)
  | exec (sql : String) (params : List PyVal)
  | commit
  deriving DecidableEq

/-- The SQL text of an action, when it has one. -/
def actSql (a : DbAct) : Option String :=
  match a with
  | DbAct.tryExec s _ => some s
  | DbAct.exec s _ => some s
  | DbAct.commit => none

/-- The fixed table list of `clear_database`, in program order: the four
edge tables, then `inspections`, then the five vertex tables. -/
def tables : List String :=
  ["has_inspection_result_edges", "has_weather_edges", "is_from_edges",
   "shipped_in_edges", "inspections", "country_months", "target_proxies",
   "months", "countries", "entities"]

/-- `clear_database`: one `DELETE FROM table` per table in `tables`
(`delOk` records whether a delete raised; a failing delete is caught and
the loop continues), then a single commit. -/
def clear_database (delOk : String → Bool) : List DbAct :=
  tables.map (fun t => DbAct.tryExec ("DELETE FROM " ++ t) (delOk t)) ++
    [DbAct.commit]

/-- Statement text of the entity-node insert in `create_nodes`. -/
def insert_entities_sql : String :=
  "INSERT INTO entities (entity_id, entity_type) VALUES (:1, :2)"

/-- Statement text of the country-node insert in `create_nodes`. -/
def insert_countries_sql : String :=
  "INSERT INTO countries (country_code, country_name) VALUES (:1, :2)"

/-- Statement text of the month-node insert in `create_nodes`. -/
def insert_months_sql : String :=
  "INSERT INTO months (month_name, month_number) VALUES (:1, :2)"

/-- Statement text of the target-proxy-node insert in `create_nodes`. -/
def insert_target_proxies_sql : String :=
  "INSERT INTO target_proxies (target_value, target_label) VALUES (:1, :2)"

/-- Statement text of the country-month-node insert in `create_nodes`. -/
def insert_country_months_sql : String :=
  "INSERT INTO country_months (cm_id, country_code, month_name) VALUES (:1, :2, :3)"

/-- Statement text of the inspection insert in
`create_inspections_and_relationships` (the Python triple-quoted literal,
whitespace included). -/
def insert_inspections_sql : String :=
  "\n                INSERT INTO inspections (\n                    entity_id, country_code, month_name, target_proxy,\n                    exams_30d, pests_30d, exams_90d, pests_90d, exams_1yr, pests_1yr, has_pest\n                ) VALUES (:1, :2, :3, :4, :5, :6, :7, :8, :9, :10, :11)\n            "

/-- Statement text of the shipped-in edge insert. -/
def insert_shipped_in_sql : String :=
  "INSERT INTO shipped_in_edges (entity_id, month_name) VALUES (:1, :2)"

/-- Statement text of the is-from edge insert. -/
def insert_is_from_sql : String :=
  "INSERT INTO is_from_edges (entity_id, country_code) VALUES (:1, :2)"

/-- Statement text of the has-weather edge insert. -/
def insert_has_weather_sql : String :=
  "INSERT INTO has_weather_edges (entity_id, cm_id) VALUES (:1, :2)"

/-- Statement text of the has-inspection-result edge insert. -/
def insert_has_inspection_result_sql : String :=
  "INSERT INTO has_inspection_result_edges (entity_id, target_value) VALUES (:1, :2)"

/-- First-occurrence deduplication by a key, the semantics shared by
pandas `Series.unique()`, `DataFrame.drop_duplicates()`, and the
seen-set loop used for country-month nodes. -/
def dedupKeyAux {α β : Type} [DecidableEq β] (key : α → β) (seen : List β) :
    List α → List α
  | [] => []
  | x :: xs =>
    if key x ∈ seen then dedupKeyAux key seen xs
    else x :: dedupKeyAux key (key x :: seen) xs

/-- First-occurrence deduplication by a key (entry point). -/
def dedupKey {α β : Type} [DecidableEq β] (key : α → β) (l : List α) : List α :=
  dedupKeyAux key [] l

/-- Sequential effectful map over `Except`, stopping at the first raise,
as a Python `for` loop does. -/
def mapE {α β : Type} (f : α → Except Unit β) : List α → Except Unit (List β)
  | [] => Except.ok []
  | x :: xs =>
    match f x with
    | Except.error e => Except.error e
    | Except.ok y =>
      match mapE f xs with
      | Except.error e => Except.error e
      | Except.ok ys => Except.ok (y :: ys)

/-- `int(cell)` in `Except` form (`error` models the raise). -/
def pyIntE (c : Cell) : Except Unit Int :=
  match pyInt c with
  | some n => Except.ok n
  | none => Except.error ()

/-- The composite id `f"CTRY_CODE_MONTH"` built for country-month
vertices and has-weather edges. -/
def cmId (r : RawRow) : String :=
  pyStr r.CTRY_CODE ++ "_" ++ pyStr r.MONTH

/-- The target-proxy-node insert of `create_nodes` for one unique value
(`label = 'no_pest' if int(target) == 0 else 'pest'`). -/
def targetInsert (t : Cell) : Except Unit DbAct :=
  match pyIntE t with
  | Except.error e => Except.error e
  | Except.ok n =>
    Except.ok (DbAct.exec insert_target_proxies_sql
      [PyVal.i n, PyVal.s (if n = 0 then "no_pest" else "pest")])

/-- `create_nodes`: inserts for the first occurrences of each entity,
country, month (numbered from 1 in occurrence order), target proxy and
country-month, then one commit.  `int(target)` can raise, hence the
`Except`. -/
def create_nodes (df : List RawRow) : Except Unit (List DbAct) :=
  let entityActs := (dedupKey id (df.map (fun r => r.ENTY_ID))).map
    (fun e => DbAct.exec insert_entities_sql
      [PyVal.s (pyStr e), PyVal.s "inspection_entity"])
  let countryActs := (dedupKey id (df.map (fun r => r.CTRY_CODE))).map
    (fun c => DbAct.exec insert_countries_sql
      [PyVal.s (pyStr c), PyVal.s (pyStr c)])
  let monthActs := ((dedupKey id (df.map (fun r => r.MONTH))).enum).map
    (fun p => DbAct.exec insert_months_sql
      [PyVal.s (pyStr p.2), PyVal.i (Int.ofNat p.1 + 1)])
  match mapE targetInsert (dedupKey id (df.map (fun r => r.TARGET_PROXY))) with
  | Except.error e => Except.error e
  | Except.ok targetActs =>
    let cmActs := (dedupKey cmId df).map
      (fun r => DbAct.exec insert_country_months_sql
        [PyVal.s (cmId r), PyVal.s (pyStr r.CTRY_CODE),
         PyVal.s (pyStr r.MONTH)])
    Except.ok (entityActs ++ countryActs ++ monthActs ++ targetActs ++
      cmActs ++ [DbAct.commit])

/-- The inspection insert of `create_inspections_and_relationships` for
one row: parameters 1-3 are strings, 4-10 the `int(...)` conversions, and
parameter 11 is `1 if row['TARGET_PROXY'] == 1 else 0`. -/
def inspectionInsert (r : RawRow) : Except Unit DbAct :=
  match pyIntE r.TARGET_PROXY, pyIntE r.ENTY_EXAMS_30D,
        pyIntE r.ENTY_PESTS_30D, pyIntE r.ENTY_EXAMS_90D,
        pyIntE r.ENTY_PESTS_90D, pyIntE r.ENTY_EXAMS_1YR,
        pyIntE r.ENTY_PESTS_1YR with
  | Except.ok tp, Except.ok e30, Except.ok p30, Except.ok e90,
    Except.ok p90, Except.ok e1, Except.ok p1 =>
    Except.ok (DbAct.exec insert_inspections_sql
      [PyVal.s (pyStr r.ENTY_ID), PyVal.s (pyStr r.CTRY_CODE),
       PyVal.s (pyStr r.MONTH), PyVal.i tp, PyVal.i e30, PyVal.i p30,
       PyVal.i e90, PyVal.i p90, PyVal.i e1, PyVal.i p1,
       PyVal.i (if cellEqInt r.TARGET_PROXY 1 then 1 else 0)])
  | _, _, _, _, _, _, _ => Except.error ()

/-- The has-inspection-result edge insert for one deduplicated row. -/
def resultInsert (r : RawRow) : Except Unit DbAct :=
  match pyIntE r.TARGET_PROXY with
  | Except.error e => Except.error e
  | Except.ok n =>
    Except.ok (DbAct.exec insert_has_inspection_result_sql
      [PyVal.s (pyStr r.ENTY_ID), PyVal.i n])

/-- `create_inspections_and_relationships`: one inspection insert per row,
a commit, then the four deduplicated edge loops and a final commit. -/
def create_inspections_and_relationships (df : List RawRow) :
    Except Unit (List DbAct) :=
  match mapE inspectionInsert df with
  | Except.error e => Except.error e
  | Except.ok insActs =>
    let shippedActs := (dedupKey (fun r => (r.ENTY_ID, r.MONTH)) df).map
      (fun r => DbAct.exec insert_shipped_in_sql
        [PyVal.s (pyStr r.ENTY_ID), PyVal.s (pyStr r.MONTH)])
    let fromActs := (dedupKey (fun r => (r.ENTY_ID, r.CTRY_CODE)) df).map
      (fun r => DbAct.exec insert_is_from_sql
        [PyVal.s (pyStr r.ENTY_ID), PyVal.s (pyStr r.CTRY_CODE)])
    let weatherActs :=
      (dedupKey (fun r => (r.ENTY_ID, r.CTRY_CODE, r.MONTH)) df).map
        (fun r => DbAct.exec insert_has_weather_sql
          [PyVal.s (pyStr r.ENTY_ID), PyVal.s (cmId r)])
    match mapE resultInsert
        (dedupKey (fun r => (r.ENTY_ID, r.TARGET_PROXY)) df) with
    | Except.error e => Except.error e
    | Except.ok resultActs =>
      Except.ok (insActs ++ [DbAct.commit] ++ shippedActs ++ fromActs ++
        weatherActs ++ resultActs ++ [DbAct.commit])

/-- The stages of `run_full_analysis`, plus `close` (run in the `finally`
block) and `write_csv` (the CSV-writing stage the specification names;
the method has no such stage — the feature-extraction lines are commented
out — so no trace ever contains it). -/
inductive Stage
  | connectStage
  | load_data
  | clear_database
  | create_nodes
  | create_inspections_and_relationships
  | get_stats
  | create_projection
  | close
  | write_csv
  deriving DecidableEq

/-- The stage list of the `try` block of `run_full_analysis`, in program
order. -/
def pipelineStages : List Stage :=
  [Stage.connectStage, Stage.load_data, Stage.clear_database,
   Stage.create_nodes, Stage.create_inspections_and_relationships,
   Stage.get_stats, Stage.create_projection]

/-- Run a stage list where `failAt s = true` means stage `s` raises:
returns the stages entered (the raising stage included) and whether an
exception escaped the `try` block. -/
def runStages (failAt : Stage → Bool) : List Stage → List Stage × Bool
  | [] => ([], false)
  | s :: rest =>
    if failAt s then ([s], true)
    else
      let r := runStages failAt rest
      (s :: r.1, r.2)

/-- `run_full_analysis`: the `try` block runs the pipeline stages in order
until one raises; the `finally` block always runs `close`.  The boolean
records whether the method re-raised. -/
def run_full_analysis (failAt : Stage → Bool) : List Stage × Bool :=
  let r := runStages failAt pipelineStages
  (r.1 ++ [Stage.close], r.2)

/-- `max_retries` of `connect`. -/
def max_retries : Nat := 30

/-- `retry_delay` of `connect`, in seconds. -/
def retry_delay : Nat := 5

/-- Observable events of the retry loop in `connect`. -/
inductive ConnEvent
  | attempt (n : Nat)
  | sleep (secs : Nat)
  deriving DecidableEq

/-- The retry loop of `connect`, from attempt number `a` with `fuel`
loop iterations left (`res n = true` means attempt `n` connects,
`false` means it raises `oracledb.DatabaseError`).  On failure the loop
sleeps `retry_delay` seconds and retries while `a < max_retries`, and
re-raises after the final attempt. -/
def connectFrom (res : Nat → Bool) : Nat → Nat → List ConnEvent × Except Unit Nat
  | _, 0 => ([], Except.error ())
  | a, fuel + 1 =>
    if res a then ([ConnEvent.attempt a], Except.ok a)
    else if a < max_retries then
      let rest := connectFrom res (a + 1) fuel
      (ConnEvent.attempt a :: ConnEvent.sleep retry_delay :: rest.1, rest.2)
    else ([ConnEvent.attempt a], Except.error ())

/-- The Oracle-connection part of `connect`:
`for attempt in range(1, max_retries + 1)`. -/
def connect (res : Nat → Bool) : List ConnEvent × Except Unit Nat :=
  connectFrom res 1 max_retries

/-- The event sequence of `m` consecutive attempts starting at attempt
number `a`, with one `sleep retry_delay` between consecutive attempts. -/
def attemptSeq : Nat → Nat → List ConnEvent
  | _, 0 => []
  | a, 1 => [ConnEvent.attempt a]
  | a, m + 2 =>
    ConnEvent.attempt a :: ConnEvent.sleep retry_delay ::
      attemptSeq (a + 1) (m + 1)

end PestDataAnalyzer

namespace PGXRest

/-!
Embedding of `main_app/pgx_rest_client.py` (class `PGXRestClient`).

Each method is a pure function from the client, its arguments and the
server's response to the pair (HTTP requests issued, outcome).  Request
payloads (JSON bodies) do not influence the claims and are not modelled;
the response body is taken as the already-parsed JSON document. -/

/-- An HTTP request: verb and URL. -/
structure HttpReq where
  verb : String
  url : String
  deriving DecidableEq

/-- An HTTP response: status code and (parsed) JSON body. -/
structure HttpResp where
  status : Nat
  jsonBody : String
  deriving DecidableEq

/-- `requests.Response.raise_for_status()`: raises `HTTPError` exactly for
client-error (4xx) and server-error (5xx) status codes. -/
def raise_for_status (s : Nat) : Except Nat Unit :=
  if 400 ≤ s ∧ s < 600 then Except.error s else Except.ok ()

/-- The shared body of every client method: issue exactly one request,
call `raise_for_status`, and return the parsed body on success. -/
def request1 (verb url : String) (resp : HttpResp) :
    List HttpReq × Except Nat String :=
  match raise_for_status resp.status with
  | Except.error e => ([⟨verb, url⟩], Except.error e)
  | Except.ok _ => ([⟨verb, url⟩], Except.ok resp.jsonBody)

/-- The REST client state: `base_url` (stored right-stripped of `/` by
`__init__`) and optional credentials installed on the session.  No method
modifies these fields. -/
structure PGXRestClient where
  base_url : String
  username : Option String := none
  password : Option String := none
  deriving DecidableEq

/-- `GET {base_url}/version`. -/
def PGXRestClient.get_version (c : PGXRestClient) (resp : HttpResp) :
    List HttpReq × Except Nat String :=
  request1 "GET" (c.base_url ++ "/version") resp

/-- `POST {base_url}/graphs` with the graph-load config payload. -/
def PGXRestClient.load_graph_from_database (c : PGXRestClient)
    (graph_name jdbc_url username password : String) (resp : HttpResp) :
    List HttpReq × Except Nat String :=
  request1 "POST" (c.base_url ++ "/graphs") resp

/-- `POST {base_url}/analytics/algorithms/run` with the pagerank payload. -/
def PGXRestClient.run_pagerank (c : PGXRestClient) (graph_name : String)
    (resp : HttpResp) : List HttpReq × Except Nat String :=
  request1 "POST" (c.base_url ++ "/analytics/algorithms/run") resp

/-- `POST {base_url}/analytics/algorithms/run` with the betweenness
payload. -/
def PGXRestClient.run_betweenness_centrality (c : PGXRestClient)
    (graph_name : String) (resp : HttpResp) :
    List HttpReq × Except Nat String :=
  request1 "POST" (c.base_url ++ "/analytics/algorithms/run") resp

/-- `POST {base_url}/analytics/algorithms/run` with the community-detection
payload. -/
def PGXRestClient.run_community_detection (c : PGXRestClient)
    (graph_name algorithm : String) (resp : HttpResp) :
    List HttpReq × Except Nat String :=
  request1 "POST" (c.base_url ++ "/analytics/algorithms/run") resp

/-- `POST {base_url}/analytics/ml/deepwalk` with the deepwalk payload. -/
def PGXRestClient.run_deepwalk (c : PGXRestClient) (graph_name : String)
    (resp : HttpResp) : List HttpReq × Except Nat String :=
  request1 "POST" (c.base_url ++ "/analytics/ml/deepwalk") resp

/-- `POST {base_url}/pgql/query` with the query payload. -/
def PGXRestClient.execute_pgql (c : PGXRestClient) (graph_name query : String)
    (resp : HttpResp) : List HttpReq × Except Nat String :=
  request1 "POST" (c.base_url ++ "/pgql/query") resp

/-- `GET {base_url}/graphs`. -/
def PGXRestClient.list_graphs (c : PGXRestClient) (resp : HttpResp) :
    List HttpReq × Except Nat String :=
  request1 "GET" (c.base_url ++ "/graphs") resp

/-- `GET {base_url}/graphs/{graph_name}`. -/
def PGXRestClient.get_graph_info (c : PGXRestClient) (graph_name : String)
    (resp : HttpResp) : List HttpReq × Except Nat String :=
  request1 "GET" (c.base_url ++ "/graphs/" ++ graph_name) resp

/-- `DELETE {base_url}/graphs/{graph_name}`. -/
def PGXRestClient.delete_graph (c : PGXRestClient) (graph_name : String)
    (resp : HttpResp) : List HttpReq × Except Nat String :=
  request1 "DELETE" (c.base_url ++ "/graphs/" ++ graph_name) resp

/-- What one method call must satisfy: exactly one request, to the given
verb and URL; the parsed body is returned iff the status is a success
(not 4xx/5xx); otherwise the raise carries the status. -/
def methodOk (out : List HttpReq × Except Nat String) (verb url : String)
    (resp : HttpResp) : Prop :=
  out.1 = [⟨verb, url⟩] ∧
  (out.2 = Except.ok resp.jsonBody ↔ ¬(400 ≤ resp.status ∧ resp.status < 600)) ∧
  (∀ e, out.2 = Except.error e → e = resp.status)

end PGXRest

/-- The column definition as the specification words it (for the schema
refinement claim): same column name, same data type with VARCHAR2 length
and NUMBER precision preserved whenever the catalog reports one, and
NOT NULL appended exactly for columns whose nullable flag is `N`. -/
def CopyTool.specColumnDef (c : CopyTool.ColMeta) : String :=
  let base :=
    if c.data_type = "VARCHAR2" then
      c.column_name ++ " VARCHAR2(" ++ toString c.data_length ++ ")"
    else if c.data_type = "NUMBER" then
      match c.data_precision with
      | some p => c.column_name ++ " NUMBER(" ++ toString p ++ ")"
      | none => c.column_name ++ " NUMBER"
    else
      c.column_name ++ " " ++ c.data_type
  if c.nullable = "N" then base ++ " NOT NULL" else base

/-- The fixed statement texts of the five vertex-table inserts of
`create_nodes`. -/
def PestDataAnalyzer.nodeTemplates : List String :=
  [PestDataAnalyzer.insert_entities_sql, PestDataAnalyzer.insert_countries_sql,
   PestDataAnalyzer.insert_months_sql, PestDataAnalyzer.insert_target_proxies_sql,
   PestDataAnalyzer.insert_country_months_sql]

/-- The fixed statement texts of the inspection insert and the four
edge-table inserts of `create_inspections_and_relationships`. -/
def PestDataAnalyzer.relTemplates : List String :=
  [PestDataAnalyzer.insert_inspections_sql, PestDataAnalyzer.insert_shipped_in_sql,
   PestDataAnalyzer.insert_is_from_sql, PestDataAnalyzer.insert_has_weather_sql,
   PestDataAnalyzer.insert_has_inspection_result_sql]

/-- `true` on numeric cells. -/
def PestDataAnalyzer.isIntCell (c : PestDataAnalyzer.Cell) : Bool :=
  match c with
  | PestDataAnalyzer.Cell.i _ => true
  | _ => false

/-- All seven converted numeric columns of a row hold integers. -/
def PestDataAnalyzer.rowNumericInt (r : PestDataAnalyzer.RawRow) : Bool :=
  PestDataAnalyzer.isIntCell r.TARGET_PROXY &&
  PestDataAnalyzer.isIntCell r.ENTY_EXAMS_30D &&
  PestDataAnalyzer.isIntCell r.ENTY_PESTS_30D &&
  PestDataAnalyzer.isIntCell r.ENTY_EXAMS_90D &&
  PestDataAnalyzer.isIntCell r.ENTY_PESTS_90D &&
  PestDataAnalyzer.isIntCell r.ENTY_EXAMS_1YR &&
  PestDataAnalyzer.isIntCell r.ENTY_PESTS_1YR

/-!
Concrete inputs used by the witness theorems.
-/

/-- A concrete catalog for witnessing the schema claim. -/
def wCatalog : List CopyTool.ColMeta :=
  [⟨"ENTITY_ID", "VARCHAR2", 50, none, "N"⟩,
   ⟨"CNT", "NUMBER", 22, some 10, "Y"⟩,
   ⟨"WHEN_SEEN", "DATE", 7, none, "Y"⟩]

/-- A concrete source table for witnessing the copy claims. -/
def wTable : CopyTool.SourceTable :=
  { name := "entities"
    cols := ["ENTITY_ID", "CNT", "WHEN_SEEN"]
    rows := [[PyVal.s "E1", PyVal.i 3, PyVal.s "2024-01-01"],
             [PyVal.s "E2", PyVal.i 0, PyVal.s "2024-02-01"]]
    catalog := wCatalog }

/-- A concrete CSV data row. -/
def wRow : PestDataAnalyzer.RawRow :=
  { ENTY_ID := PestDataAnalyzer.Cell.s "E1"
    CTRY_CODE := PestDataAnalyzer.Cell.s "CN"
    MONTH := PestDataAnalyzer.Cell.s "JAN"
    TARGET_PROXY := PestDataAnalyzer.Cell.s "1"
    ENTY_EXAMS_30D := PestDataAnalyzer.Cell.s "4"
    ENTY_PESTS_30D := PestDataAnalyzer.Cell.s "oops"
    ENTY_EXAMS_90D := PestDataAnalyzer.Cell.i 9
    ENTY_PESTS_90D := PestDataAnalyzer.Cell.missing
    ENTY_EXAMS_1YR := PestDataAnalyzer.Cell.s "12"
    ENTY_PESTS_1YR := PestDataAnalyzer.Cell.s "0" }

/-- A concrete repeated-header row (`TARGET_PROXY` reads `TP`). -/
def wHeaderRow : PestDataAnalyzer.RawRow :=
  { ENTY_ID := PestDataAnalyzer.Cell.s "ENTY_ID"
    CTRY_CODE := PestDataAnalyzer.Cell.s "CTRY_CODE"
    MONTH := PestDataAnalyzer.Cell.s "MONTH"
    TARGET_PROXY := PestDataAnalyzer.Cell.s "TP"
    ENTY_EXAMS_30D := PestDataAnalyzer.Cell.s "ENTY_EXAMS_30D"
    ENTY_PESTS_30D := PestDataAnalyzer.Cell.s "ENTY_PESTS_30D"
    ENTY_EXAMS_90D := PestDataAnalyzer.Cell.s "ENTY_EXAMS_90D"
    ENTY_PESTS_90D := PestDataAnalyzer.Cell.s "ENTY_PESTS_90D"
    ENTY_EXAMS_1YR := PestDataAnalyzer.Cell.s "ENTY_EXAMS_1YR"
    ENTY_PESTS_1YR := PestDataAnalyzer.Cell.s "ENTY_PESTS_1YR" }

/-- The cleaned rows `load_data` produces on `[wHeaderRow, wRow]`. -/
def wOut : List PestDataAnalyzer.RawRow :=
  match PestDataAnalyzer.load_data [wHeaderRow, wRow] with
  | some l => l
  | none => []

/-- The action trace `create_nodes` emits on `wOut`. -/
def wNodeActs : List PestDataAnalyzer.DbAct :=
  match PestDataAnalyzer.create_nodes wOut with
  | Except.ok l => l
  | Except.error _ => []

/-- The action trace `create_inspections_and_relationships` emits on
`wOut`. -/
def wRelActs : List PestDataAnalyzer.DbAct :=
  match PestDataAnalyzer.create_inspections_and_relationships wOut with
  | Except.ok l => l
  | Except.error _ => []

/-!
Theorems.
-/

/-- C1: a non-raising run of `copy_table` hands `executemany` exactly one
parameter tuple per row of the DataFrame read by `SELECT *` from the
source (the batch is the row list itself), and when zero rows are read no
`INSERT` is issued at all. -/
theorem copy_table_row_counts (dropOk : Bool) (t : CopyTool.SourceTable) :
    (∀ b ∈ CopyTool.execManyBatches (CopyTool.copy_table dropOk t),
      b.2.length = t.rows.length) ∧
    (t.rows = [] →
      CopyTool.execManyBatches (CopyTool.copy_table dropOk t) = []) ∧
    (t.rows ≠ [] →
      CopyTool.execManyBatches (CopyTool.copy_table dropOk t) =
        [(CopyTool.insert_sql t, t.rows)]) := by
  rcases h : t.rows with _ | ⟨x, xs⟩ <;>
    simp [CopyTool.copy_table, CopyTool.execManyBatches, h]

/-- C1 witness: the theorem applied to the concrete table `wTable`. -/
theorem copy_table_row_counts_witness :
    wTable.rows ≠ [] ∧
    CopyTool.execManyBatches (CopyTool.copy_table true wTable) =
      [(CopyTool.insert_sql wTable, wTable.rows)] :=
  ⟨by decide, (copy_table_row_counts true wTable).2.2 (by decide)⟩

/-- Every table of the list is attempted by the copy loop, in order,
whatever set of per-table attempts fails. -/
theorem copyLoop_attempts (fails : String → Bool) :
    ∀ l : List String,
      (CopyTool.copyLoop fails l).filterMap CopyTool.attemptOf = l := by
  intro l
  induction l with
  | nil => rfl
  | cons t ts ih =>
    by_cases h : fails t <;>
      simp [CopyTool.copyLoop, h, CopyTool.attemptOf, ih]

/-- C5: the `__main__` copy loop attempts every one of the ten tables in
order no matter which earlier tables fail (log and continue), and inside
`copy_table` the best-effort `DROP TABLE` is issued first and its failure
changes nothing in the rest of the run. -/
theorem copy_loop_log_and_continue (fails : String → Bool) :
    ((CopyTool.copyLoop fails CopyTool.tables).filterMap CopyTool.attemptOf =
      CopyTool.tables) ∧
    (∀ (t : CopyTool.SourceTable) (ok : Bool),
      (CopyTool.copy_table ok t).head? =
        some (CopyTool.Act.tryExec ("DROP TABLE " ++ t.name) ok)) ∧
    (∀ t : CopyTool.SourceTable,
      List.drop 1 (CopyTool.copy_table true t) =
        List.drop 1 (CopyTool.copy_table false t)) :=
  ⟨copyLoop_attempts fails _, fun _ _ => rfl, fun _ => rfl⟩

/-- When the catalog never reports a zero `data_precision` (it reports
`NULL` or 1-38), the column definition the code builds coincides with the
specification's description of it. -/
theorem colDef_eq_specColumnDef (c : CopyTool.ColMeta)
    (h : c.data_precision ≠ some 0) :
    CopyTool.colDef c = CopyTool.specColumnDef c := by
  rcases hc : c.data_precision with _ | p
  · simp [CopyTool.colDef, CopyTool.specColumnDef, hc]
  · have hp : p ≠ 0 := by
      intro h0
      exact h (by rw [hc, h0])
    simp [CopyTool.colDef, CopyTool.specColumnDef, hc, hp]

/-- C8: for every copied table whose catalog reports no zero precision,
the `CREATE TABLE` statement issued on the destination lists each source
column, in `column_id` order, exactly as the specification describes
(VARCHAR2 length and NUMBER precision preserved, NOT NULL iff the
nullable flag is `N`), and that statement is the one `copy_table`
executes. -/
theorem create_table_matches_catalog (t : CopyTool.SourceTable)
    (hp : t.catalog.all (fun c => c.data_precision != some 0) = true) :
    (CopyTool.create_sql t =
      "CREATE TABLE " ++ t.name ++ " (" ++
        String.intercalate ", " (t.catalog.map CopyTool.specColumnDef) ++ ")") ∧
    (∀ c ∈ t.catalog, CopyTool.colDef c = CopyTool.specColumnDef c) ∧
    (∀ dropOk, CopyTool.Act.exec (CopyTool.create_sql t) ∈
      CopyTool.copy_table dropOk t) := by
  have hall : ∀ c ∈ t.catalog, c.data_precision ≠ some 0 := by
    intro c hc
    simpa using List.all_eq_true.mp hp c hc
  refine ⟨?_, fun c hc => colDef_eq_specColumnDef c (hall c hc),
    fun dropOk => ?_⟩
  · unfold CopyTool.create_sql
    have hmap : t.catalog.map CopyTool.colDef =
        t.catalog.map CopyTool.specColumnDef :=
      List.map_congr_left (fun c hc => colDef_eq_specColumnDef c (hall c hc))
    rw [hmap]
  · simp [CopyTool.copy_table]

/-- C8 witness: the theorem applied to the concrete table `wTable`. -/
theorem create_table_matches_catalog_witness :
    (wTable.catalog.all (fun c => c.data_precision != some 0) = true) ∧
    ((CopyTool.create_sql wTable =
      "CREATE TABLE " ++ wTable.name ++ " (" ++
        String.intercalate ", "
          (wTable.catalog.map CopyTool.specColumnDef) ++ ")") ∧
     (∀ c ∈ wTable.catalog, CopyTool.colDef c = CopyTool.specColumnDef c) ∧
     (∀ dropOk, CopyTool.Act.exec (CopyTool.create_sql wTable) ∈
       CopyTool.copy_table dropOk wTable)) :=
  ⟨by decide, create_table_matches_catalog wTable (by decide)⟩

/-- Every method body of the REST client satisfies `methodOk` for its
verb and URL: one request, parsed body returned iff the status is not a
4xx/5xx, raise carrying the status otherwise. -/
theorem request1_ok (verb url : String) (resp : PGXRest.HttpResp) :
    PGXRest.methodOk (PGXRest.request1 verb url resp) verb url resp := by
  unfold PGXRest.methodOk PGXRest.request1 PGXRest.raise_for_status
  by_cases h : 400 ≤ resp.status ∧ resp.status < 600 <;> simp [h]

/-- C6: each of the ten `PGXRestClient` methods issues exactly one HTTP
request, to its fixed endpoint, and returns the parsed JSON body if and
only if the response status is a success; on a 4xx/5xx it raises with
that status, with no retry (the request list is a singleton) and no
change to the client (the methods are functions of the immutable client
record). -/
theorem pgx_rest_client_single_request (c : PGXRest.PGXRestClient)
    (g jdbc u p q alg : String) (resp : PGXRest.HttpResp) :
    PGXRest.methodOk (c.get_version resp)
      "GET" (c.base_url ++ "/version") resp ∧
    PGXRest.methodOk (c.load_graph_from_database g jdbc u p resp)
      "POST" (c.base_url ++ "/graphs") resp ∧
    PGXRest.methodOk (c.run_pagerank g resp)
      "POST" (c.base_url ++ "/analytics/algorithms/run") resp ∧
    PGXRest.methodOk (c.run_betweenness_centrality g resp)
      "POST" (c.base_url ++ "/analytics/algorithms/run") resp ∧
    PGXRest.methodOk (c.run_community_detection g alg resp)
      "POST" (c.base_url ++ "/analytics/algorithms/run") resp ∧
    PGXRest.methodOk (c.run_deepwalk g resp)
      "POST" (c.base_url ++ "/analytics/ml/deepwalk") resp ∧
    PGXRest.methodOk (c.execute_pgql g q resp)
      "POST" (c.base_url ++ "/pgql/query") resp ∧
    PGXRest.methodOk (c.list_graphs resp)
      "GET" (c.base_url ++ "/graphs") resp ∧
    PGXRest.methodOk (c.get_graph_info g resp)
      "GET" (c.base_url ++ "/graphs/" ++ g) resp ∧
    PGXRest.methodOk (c.delete_graph g resp)
      "DELETE" (c.base_url ++ "/graphs/" ++ g) resp :=
  ⟨request1_ok _ _ _, request1_ok _ _ _, request1_ok _ _ _,
   request1_ok _ _ _, request1_ok _ _ _, request1_ok _ _ _,
   request1_ok _ _ _, request1_ok _ _ _, request1_ok _ _ _,
   request1_ok _ _ _⟩

/-- Shape of the retry loop from attempt `a` with `fuel` iterations left:
some number `d` of further failures happen, each separated by one sleep,
and the loop either succeeds at attempt `a + d` or raises there because
`a + d` is the final attempt. -/
theorem connectFrom_spec (res : Nat → Bool) :
    ∀ fuel a, 1 ≤ fuel → a + fuel = PestDataAnalyzer.max_retries + 1 →
    ∃ d, d < fuel ∧
      (PestDataAnalyzer.connectFrom res a fuel).1 =
        PestDataAnalyzer.attemptSeq a (d + 1) ∧
      (∀ j, a ≤ j → j < a + d → res j = false) ∧
      ((res (a + d) = true ∧
         (PestDataAnalyzer.connectFrom res a fuel).2 = Except.ok (a + d)) ∨
       (res (a + d) = false ∧ a + d = PestDataAnalyzer.max_retries ∧
         (PestDataAnalyzer.connectFrom res a fuel).2 = Except.error ())) := by
  intro fuel
  induction fuel with
  | zero => intro a h1 _; omega
  | succ f ih =>
    intro a _ h2
    by_cases hr : res a
    · refine ⟨0, by omega, ?_, by omega, Or.inl ⟨by simpa using hr, ?_⟩⟩
      · simp [PestDataAnalyzer.connectFrom, hr, PestDataAnalyzer.attemptSeq]
      · simp [PestDataAnalyzer.connectFrom, hr]
    · have hrf : res a = false := by simpa using hr
      by_cases ha : a < PestDataAnalyzer.max_retries
      · have hf : 1 ≤ f := by
          simp [PestDataAnalyzer.max_retries] at h2 ha ⊢
          omega
        obtain ⟨d, hd, htr, hprev, hres⟩ := ih (a + 1) hf (by omega)
        refine ⟨d + 1, by omega, ?_, ?_, ?_⟩
        · simp [PestDataAnalyzer.connectFrom, hrf, ha, htr,
            PestDataAnalyzer.attemptSeq]
        · intro j hj1 hj2
          rcases Nat.eq_or_lt_of_le hj1 with he | hlt
          · exact he ▸ hrf
          · exact hprev j hlt (by omega)
        · have hadd : a + (d + 1) = a + 1 + d := by omega
          rw [hadd]
          rcases hres with ⟨hx, hy⟩ | ⟨hx, hy, hz⟩
          · exact Or.inl ⟨hx, by
              simp [PestDataAnalyzer.connectFrom, hrf, ha, hy]⟩
          · exact Or.inr ⟨hx, hy, by
              simp [PestDataAnalyzer.connectFrom, hrf, ha, hz]⟩
      · have hae : a = PestDataAnalyzer.max_retries := by
          simp [PestDataAnalyzer.max_retries] at h2 ha ⊢
          omega
        refine ⟨0, by omega, ?_, by omega, Or.inr ⟨by simpa using hr, by omega,
          ?_⟩⟩
        · simp [PestDataAnalyzer.connectFrom, hrf, ha,
            PestDataAnalyzer.attemptSeq]
        · simp [PestDataAnalyzer.connectFrom, hrf, ha]

/-- C2: `connect` makes at most `max_retries = 30` initial connection
attempts with one `retry_delay = 5` second sleep between consecutive
failed attempts (the trace is `attemptSeq 1 m` for some `1 ≤ m ≤ 30`),
stops at the first successful attempt, and when every attempt fails it
re-raises after attempt 30 instead of returning normally. -/
theorem connect_retry_policy (res : Nat → Bool) :
    (∃ m, 1 ≤ m ∧ m ≤ PestDataAnalyzer.max_retries ∧
      (PestDataAnalyzer.connect res).1 = PestDataAnalyzer.attemptSeq 1 m ∧
      (∀ j, 1 ≤ j → j < m → res j = false) ∧
      ((res m = true ∧
         (PestDataAnalyzer.connect res).2 = Except.ok m) ∨
       (res m = false ∧ m = PestDataAnalyzer.max_retries ∧
         (PestDataAnalyzer.connect res).2 = Except.error ()))) ∧
    ((∀ j, 1 ≤ j → j ≤ PestDataAnalyzer.max_retries → res j = false) →
      (PestDataAnalyzer.connect res).2 = Except.error ()) := by
  obtain ⟨d, hd, htr, hprev, hres⟩ :=
    connectFrom_spec res PestDataAnalyzer.max_retries 1 (by decide) (by decide)
  have h1d : 1 + d = d + 1 := by omega
  constructor
  · refine ⟨d + 1, by omega, by omega, ?_, ?_, ?_⟩
    · exact htr
    · intro j hj1 hj2
      exact hprev j hj1 (by omega)
    · rcases hres with ⟨hx, hy⟩ | ⟨hx, hy, hz⟩
      · exact Or.inl ⟨h1d ▸ hx, by rw [← h1d]; exact hy⟩
      · exact Or.inr ⟨h1d ▸ hx, by omega, hz⟩
  · intro hall
    rcases hres with ⟨hx, _⟩ | ⟨_, _, hz⟩
    · have := hall (1 + d) (by omega) (by omega)
      rw [this] at hx
      exact absurd hx (by simp)
    · exact hz

/-- Running a stage list executes some prefix of it (everything up to and
including the first raising stage), and executes all of it exactly when
no exception escapes. -/
theorem runStages_take (failAt : PestDataAnalyzer.Stage → Bool) :
    ∀ l : List PestDataAnalyzer.Stage, ∃ k, k ≤ l.length ∧
      (PestDataAnalyzer.runStages failAt l).1 = l.take k ∧
      ((PestDataAnalyzer.runStages failAt l).2 = false →
        (PestDataAnalyzer.runStages failAt l).1 = l) := by
  intro l
  induction l with
  | nil => exact ⟨0, by simp [PestDataAnalyzer.runStages]⟩
  | cons s rest ih =>
    by_cases h : failAt s
    · exact ⟨1, by simp, by simp [PestDataAnalyzer.runStages, h],
        by simp [PestDataAnalyzer.runStages, h]⟩
    · obtain ⟨k, hk, h1, h2⟩ := ih
      refine ⟨k + 1, by simp; omega, ?_, ?_⟩
      · simp [PestDataAnalyzer.runStages, h, List.take_succ_cons, h1]
      · intro hsnd
        simp [PestDataAnalyzer.runStages, h] at hsnd ⊢
        exact h2 hsnd

/-- The trace of `run_full_analysis` is a prefix of the pipeline stages
followed by `close`, and is the whole pipeline followed by `close` when
nothing raised. -/
theorem run_full_analysis_shape (failAt : PestDataAnalyzer.Stage → Bool) :
    ∃ k, k ≤ PestDataAnalyzer.pipelineStages.length ∧
      (PestDataAnalyzer.run_full_analysis failAt).1 =
        PestDataAnalyzer.pipelineStages.take k ++
          [PestDataAnalyzer.Stage.close] ∧
      ((PestDataAnalyzer.run_full_analysis failAt).2 = false →
        (PestDataAnalyzer.run_full_analysis failAt).1 =
          PestDataAnalyzer.pipelineStages ++
            [PestDataAnalyzer.Stage.close]) := by
  obtain ⟨k, hk, h1, h2⟩ :=
    runStages_take failAt PestDataAnalyzer.pipelineStages
  refine ⟨k, hk, ?_, ?_⟩
  · simp [PestDataAnalyzer.run_full_analysis, h1]
  · intro hf
    simp [PestDataAnalyzer.run_full_analysis] at hf ⊢
    rw [h2 hf]

/-- C4 counterexample: on the run of `run_full_analysis` where no stage
raises, the executed stages are connect, load CSV + clean, truncate,
create nodes, create inspections and relationships, stats, projection and
close — and no write-CSV stage occurs anywhere in the trace, so the
pipeline claimed to end with "write CSV" does not execute such a stage. -/
theorem run_full_analysis_no_write_csv :
    (PestDataAnalyzer.run_full_analysis (fun _ => false)).1 =
      [PestDataAnalyzer.Stage.connectStage, PestDataAnalyzer.Stage.load_data,
       PestDataAnalyzer.Stage.clear_database,
       PestDataAnalyzer.Stage.create_nodes,
       PestDataAnalyzer.Stage.create_inspections_and_relationships,
       PestDataAnalyzer.Stage.get_stats,
       PestDataAnalyzer.Stage.create_projection,
       PestDataAnalyzer.Stage.close] ∧
    PestDataAnalyzer.Stage.write_csv ∉
      (PestDataAnalyzer.run_full_analysis (fun _ => false)).1 := by
  decide

/-- C4 (amended): every run of `run_full_analysis` executes a prefix of
the fixed stage sequence connect, load CSV + clean, truncate tables, bulk
insert vertices then edges, gather stats, create projection — in that
order, nothing reordered or repeated, stopping only at a raising stage —
there is no write-CSV stage in any trace, the whole sequence runs when
nothing raises, and `close` always runs, as the final action, whether the
pipeline completes or raises. -/
theorem run_full_analysis_stage_order (failAt : PestDataAnalyzer.Stage → Bool) :
    (∃ k, k ≤ PestDataAnalyzer.pipelineStages.length ∧
      (PestDataAnalyzer.run_full_analysis failAt).1 =
        PestDataAnalyzer.pipelineStages.take k ++
          [PestDataAnalyzer.Stage.close]) ∧
    ((PestDataAnalyzer.run_full_analysis failAt).1.getLast? =
      some PestDataAnalyzer.Stage.close) ∧
    ((PestDataAnalyzer.run_full_analysis failAt).2 = false →
      (PestDataAnalyzer.run_full_analysis failAt).1 =
        PestDataAnalyzer.pipelineStages ++ [PestDataAnalyzer.Stage.close]) ∧
    (PestDataAnalyzer.Stage.write_csv ∉
      (PestDataAnalyzer.run_full_analysis failAt).1) ∧
    PestDataAnalyzer.pipelineStages =
      [PestDataAnalyzer.Stage.connectStage, PestDataAnalyzer.Stage.load_data,
       PestDataAnalyzer.Stage.clear_database,
       PestDataAnalyzer.Stage.create_nodes,
       PestDataAnalyzer.Stage.create_inspections_and_relationships,
       PestDataAnalyzer.Stage.get_stats,
       PestDataAnalyzer.Stage.create_projection] := by
  obtain ⟨k, hk, h1, h2⟩ := run_full_analysis_shape failAt
  refine ⟨⟨k, hk, h1⟩, ?_, h2, ?_, rfl⟩
  · rw [h1]
    simp
  · rw [h1]
    intro hmem
    rcases List.mem_append.mp hmem with hin | hin
    · have := List.mem_of_mem_take hin
      revert this
      decide
    · revert hin
      decide

/-- C3: `clear_database` attempts `DELETE FROM t` for each of the ten
graph tables in the fixed order (the four edge tables and `inspections`
first, then the five vertex tables), attempting every table no matter
which deletes fail (a failing table is skipped without aborting), ends
with a single commit, and in `run_full_analysis` the truncation stage
always precedes both insert stages. -/
theorem clear_database_truncate_and_reload (delOk : String → Bool)
    (failAt : PestDataAnalyzer.Stage → Bool) :
    ((PestDataAnalyzer.clear_database delOk).filterMap
        PestDataAnalyzer.actSql =
      PestDataAnalyzer.tables.map (fun t => "DELETE FROM " ++ t)) ∧
    ((PestDataAnalyzer.clear_database delOk).getLast? =
      some PestDataAnalyzer.DbAct.commit) ∧
    (PestDataAnalyzer.tables =
      ["has_inspection_result_edges", "has_weather_edges", "is_from_edges",
       "shipped_in_edges", "inspections", "country_months", "target_proxies",
       "months", "countries", "entities"]) ∧
    (PestDataAnalyzer.Stage.create_nodes ∈
        (PestDataAnalyzer.run_full_analysis failAt).1 →
      (PestDataAnalyzer.run_full_analysis failAt).1.indexOf
          PestDataAnalyzer.Stage.clear_database <
        (PestDataAnalyzer.run_full_analysis failAt).1.indexOf
          PestDataAnalyzer.Stage.create_nodes) ∧
    (PestDataAnalyzer.Stage.create_inspections_and_relationships ∈
        (PestDataAnalyzer.run_full_analysis failAt).1 →
      (PestDataAnalyzer.run_full_analysis failAt).1.indexOf
          PestDataAnalyzer.Stage.clear_database <
        (PestDataAnalyzer.run_full_analysis failAt).1.indexOf
          PestDataAnalyzer.Stage.create_inspections_and_relationships) := by
  obtain ⟨k, hk, h1, _⟩ := run_full_analysis_shape failAt
  have hk7 : k ≤ 7 := by simpa [PestDataAnalyzer.pipelineStages] using hk
  refine ⟨rfl, rfl, rfl, ?_, ?_⟩ <;> rw [h1] <;>
    (interval_cases k <;> decide)

/-- C9: when `load_data` returns, the kept rows are exactly the input
rows with the repeated header row (detected via `TARGET_PROXY == 'TP'` or
`str(ENTY_ID) == 'ENTY_ID'` on the first row) dropped before conversion,
every value of the seven numeric columns is an integer afterwards, and a
cell that cannot be parsed as a number is mapped to 0 by the conversion. -/
theorem load_data_numeric_cleaning (rows out : List PestDataAnalyzer.RawRow)
    (h : PestDataAnalyzer.load_data rows = some out) :
    (∃ r rs, rows = r :: rs ∧
      out = (if PestDataAnalyzer.isHeaderRow r then rs else r :: rs).map
        PestDataAnalyzer.convertRow) ∧
    (∀ row ∈ out, PestDataAnalyzer.rowNumericInt row = true) ∧
    (∀ c, PestDataAnalyzer.cellUnparseable c = true →
      PestDataAnalyzer.toNumericFill0 c = 0) := by
  cases rows with
  | nil => simp [PestDataAnalyzer.load_data] at h
  | cons r rs =>
    simp only [PestDataAnalyzer.load_data, Option.some.injEq] at h
    refine ⟨⟨r, rs, rfl, h.symm⟩, ?_, ?_⟩
    · intro row hrow
      rw [← h] at hrow
      obtain ⟨r0, _, hr0⟩ := List.mem_map.mp hrow
      rw [← hr0]
      simp [PestDataAnalyzer.convertRow, PestDataAnalyzer.rowNumericInt,
        PestDataAnalyzer.isIntCell]
    · intro c hc
      cases c with
      | i n => simp [PestDataAnalyzer.cellUnparseable] at hc
      | s v =>
        simp only [PestDataAnalyzer.cellUnparseable,
          Option.isNone_iff_eq_none] at hc
        simp [PestDataAnalyzer.toNumericFill0, hc]
      | missing => rfl

/-- C9 witness: the theorem applied to the concrete rows
`[wHeaderRow, wRow]`, whose first row is a repeated header. -/
theorem load_data_numeric_cleaning_witness :
    PestDataAnalyzer.load_data [wHeaderRow, wRow] = some wOut ∧
    ((∃ r rs, [wHeaderRow, wRow] = r :: rs ∧
      wOut = (if PestDataAnalyzer.isHeaderRow r then rs else r :: rs).map
        PestDataAnalyzer.convertRow) ∧
     (∀ row ∈ wOut, PestDataAnalyzer.rowNumericInt row = true) ∧
     (∀ c, PestDataAnalyzer.cellUnparseable c = true →
       PestDataAnalyzer.toNumericFill0 c = 0)) :=
  ⟨rfl, load_data_numeric_cleaning [wHeaderRow, wRow] wOut rfl⟩

/-- Every element of a successful `mapE` run comes from applying the body
to some element of the input list. -/
theorem mapE_ok_mem {α β : Type} (f : α → Except Unit β) :
    ∀ (l : List α) (out : List β),
      PestDataAnalyzer.mapE f l = Except.ok out →
      ∀ y ∈ out, ∃ x ∈ l, f x = Except.ok y := by
  intro l
  induction l with
  | nil =>
    intro out h y hy
    simp [PestDataAnalyzer.mapE] at h
    subst h
    simp at hy
  | cons x xs ih =>
    intro out h y hy
    cases hf : f x with
    | error e => simp [PestDataAnalyzer.mapE, hf] at h
    | ok y0 =>
      cases hm : PestDataAnalyzer.mapE f xs with
      | error e => simp [PestDataAnalyzer.mapE, hf, hm] at h
      | ok ys =>
        simp [PestDataAnalyzer.mapE, hf, hm] at h
        rw [← h] at hy
        rcases List.mem_cons.mp hy with rfl | hys
        · exact ⟨x, List.mem_cons_self x xs, hf⟩
        · obtain ⟨x2, hx2, hfx2⟩ := ih ys hm y hys
          exact ⟨x2, List.mem_cons_of_mem x hx2, hfx2⟩

/-- On a converted row every `int(...)` succeeds, so the inspection
insert evaluates to the explicit parameter list: `target_proxy` in
position 4 and `has_pest` in position 11, the latter 1 exactly when the
converted `TARGET_PROXY` equals 1. -/
theorem inspectionInsert_convertRow (r0 : PestDataAnalyzer.RawRow) :
    PestDataAnalyzer.inspectionInsert (PestDataAnalyzer.convertRow r0) =
      Except.ok (PestDataAnalyzer.DbAct.exec
        PestDataAnalyzer.insert_inspections_sql
        [PyVal.s (PestDataAnalyzer.pyStr r0.ENTY_ID),
         PyVal.s (PestDataAnalyzer.pyStr r0.CTRY_CODE),
         PyVal.s (PestDataAnalyzer.pyStr r0.MONTH),
         PyVal.i (PestDataAnalyzer.toNumericFill0 r0.TARGET_PROXY),
         PyVal.i (PestDataAnalyzer.toNumericFill0 r0.ENTY_EXAMS_30D),
         PyVal.i (PestDataAnalyzer.toNumericFill0 r0.ENTY_PESTS_30D),
         PyVal.i (PestDataAnalyzer.toNumericFill0 r0.ENTY_EXAMS_90D),
         PyVal.i (PestDataAnalyzer.toNumericFill0 r0.ENTY_PESTS_90D),
         PyVal.i (PestDataAnalyzer.toNumericFill0 r0.ENTY_EXAMS_1YR),
         PyVal.i (PestDataAnalyzer.toNumericFill0 r0.ENTY_PESTS_1YR),
         PyVal.i
           (if PestDataAnalyzer.toNumericFill0 r0.TARGET_PROXY == 1
            then 1 else 0)]) := rfl

/-- C10: every inspection row inserted by
`create_inspections_and_relationships` on the output of `load_data`
satisfies `has_pest = 1` (parameter 11) if and only if
`target_proxy = 1` (parameter 4), for any input CSV. -/
theorem inspections_has_pest_iff_target
    (df out acts : _) (h1 : PestDataAnalyzer.load_data df = some out)
    (h2 : PestDataAnalyzer.create_inspections_and_relationships out =
      Except.ok acts) :
    ∀ ps, PestDataAnalyzer.DbAct.exec
        PestDataAnalyzer.insert_inspections_sql ps ∈ acts →
      (ps.get? 10 = some (PyVal.i 1) ↔ ps.get? 3 = some (PyVal.i 1)) := by
  have hout : ∀ row ∈ out, ∃ r0, row = PestDataAnalyzer.convertRow r0 := by
    cases df with
    | nil => simp [PestDataAnalyzer.load_data] at h1
    | cons r rs =>
      simp only [PestDataAnalyzer.load_data, Option.some.injEq] at h1
      intro row hrow
      rw [← h1] at hrow
      obtain ⟨r0, _, hr0⟩ := List.mem_map.mp hrow
      exact ⟨r0, hr0.symm⟩
  cases hins : PestDataAnalyzer.mapE PestDataAnalyzer.inspectionInsert out with
  | error e =>
    simp [PestDataAnalyzer.create_inspections_and_relationships, hins] at h2
  | ok insActs =>
    cases hres : PestDataAnalyzer.mapE PestDataAnalyzer.resultInsert
        (PestDataAnalyzer.dedupKey
          (fun r => (r.ENTY_ID, r.TARGET_PROXY)) out) with
    | error e =>
      simp [PestDataAnalyzer.create_inspections_and_relationships, hins,
        hres] at h2
    | ok resultActs =>
      simp only [PestDataAnalyzer.create_inspections_and_relationships, hins,
        hres, Except.ok.injEq] at h2
      intro ps hmem
      rw [← h2] at hmem
      simp only [List.mem_append, List.mem_cons, List.mem_singleton] at hmem
      rcases hmem with ((((((hm | hm) | hm) | hm) | hm) | hm) | hm)
      · -- the inspection inserts themselves
        obtain ⟨row, hrowmem, hinsp⟩ :=
          mapE_ok_mem PestDataAnalyzer.inspectionInsert out insActs hins _ hm
        obtain ⟨r0, rfl⟩ := hout row hrowmem
        rw [inspectionInsert_convertRow] at hinsp
        simp only [Except.ok.injEq, PestDataAnalyzer.DbAct.exec.injEq] at hinsp
        rw [← hinsp.2]
        by_cases hn : PestDataAnalyzer.toNumericFill0 r0.TARGET_PROXY = 1 <;>
          simp [hn, List.get?]
      · -- the commit after the inspection loop
        simp at hm
      · -- shipped-in edges: different statement text
        obtain ⟨r, _, hr⟩ := List.mem_map.mp hm
        have hsql := (PestDataAnalyzer.DbAct.exec.injEq _ _ _ _).mp hr
        exact absurd hsql.1 (by decide)
      · -- is-from edges
        obtain ⟨r, _, hr⟩ := List.mem_map.mp hm
        have hsql := (PestDataAnalyzer.DbAct.exec.injEq _ _ _ _).mp hr
        exact absurd hsql.1 (by decide)
      · -- has-weather edges
        obtain ⟨r, _, hr⟩ := List.mem_map.mp hm
        have hsql := (PestDataAnalyzer.DbAct.exec.injEq _ _ _ _).mp hr
        exact absurd hsql.1 (by decide)
      · -- has-inspection-result edges
        obtain ⟨r, _, hr⟩ := mapE_ok_mem PestDataAnalyzer.resultInsert _
          resultActs hres _ hm
        cases hpy : PestDataAnalyzer.pyIntE r.TARGET_PROXY with
        | error e => simp [PestDataAnalyzer.resultInsert, hpy] at hr
        | ok n =>
          simp only [PestDataAnalyzer.resultInsert, hpy, Except.ok.injEq,
            PestDataAnalyzer.DbAct.exec.injEq] at hr
          exact absurd hr.1 (by decide)
      · -- the final commit
        simp at hm

/-- C10 witness: the theorem applied to the concrete cleaned rows `wOut`
and the trace `wRelActs` they produce. -/
theorem inspections_has_pest_iff_target_witness :
    PestDataAnalyzer.load_data [wHeaderRow, wRow] = some wOut ∧
    PestDataAnalyzer.create_inspections_and_relationships wOut =
      Except.ok wRelActs ∧
    (∀ ps, PestDataAnalyzer.DbAct.exec
        PestDataAnalyzer.insert_inspections_sql ps ∈ wRelActs →
      (ps.get? 10 = some (PyVal.i 1) ↔ ps.get? 3 = some (PyVal.i 1))) :=
  ⟨rfl, rfl,
   inspections_has_pest_iff_target [wHeaderRow, wRow] wOut wRelActs rfl rfl⟩

/-- A successful inspection insert always carries the fixed inspection
statement text. -/
theorem inspectionInsert_sql (r : PestDataAnalyzer.RawRow)
    (a : PestDataAnalyzer.DbAct)
    (h : PestDataAnalyzer.inspectionInsert r = Except.ok a) :
    PestDataAnalyzer.actSql a =
      some PestDataAnalyzer.insert_inspections_sql := by
  unfold PestDataAnalyzer.inspectionInsert at h
  split at h
  · simp only [Except.ok.injEq] at h
    rw [← h]
    rfl
  · simp at h

/-- A successful target-proxy insert always carries the fixed
target-proxy statement text. -/
theorem targetInsert_sql (t : PestDataAnalyzer.Cell)
    (a : PestDataAnalyzer.DbAct)
    (h : PestDataAnalyzer.targetInsert t = Except.ok a) :
    PestDataAnalyzer.actSql a =
      some PestDataAnalyzer.insert_target_proxies_sql := by
  unfold PestDataAnalyzer.targetInsert at h
  split at h
  · simp at h
  · simp only [Except.ok.injEq] at h
    rw [← h]
    rfl

/-- A successful has-inspection-result insert always carries the fixed
result-edge statement text. -/
theorem resultInsert_sql (r : PestDataAnalyzer.RawRow)
    (a : PestDataAnalyzer.DbAct)
    (h : PestDataAnalyzer.resultInsert r = Except.ok a) :
    PestDataAnalyzer.actSql a =
      some PestDataAnalyzer.insert_has_inspection_result_sql := by
  unfold PestDataAnalyzer.resultInsert at h
  split at h
  · simp at h
  · simp only [Except.ok.injEq] at h
    rw [← h]
    rfl

/-- C7: for every pair of input CSVs, every statement text executed by
`create_nodes` is one of the five fixed vertex-insert templates, every
statement text executed by `create_inspections_and_relationships` is one
of the five fixed inspection/edge templates, `copy_table`'s row insert
text is independent of the row values, and `clear_database` executes only
the ten fixed `DELETE FROM` texts — so row values reach the database only
through the numbered bind parameters, never the SQL text. -/
theorem sql_texts_fixed_templates (df1 df2 : List PestDataAnalyzer.RawRow)
    (acts1 acts2 : List PestDataAnalyzer.DbAct)
    (h1 : PestDataAnalyzer.create_nodes df1 = Except.ok acts1)
    (h2 : PestDataAnalyzer.create_inspections_and_relationships df2 =
      Except.ok acts2) :
    (∀ s ∈ acts1.filterMap PestDataAnalyzer.actSql,
      s ∈ PestDataAnalyzer.nodeTemplates) ∧
    (∀ s ∈ acts2.filterMap PestDataAnalyzer.actSql,
      s ∈ PestDataAnalyzer.relTemplates) ∧
    (∀ (t : CopyTool.SourceTable) (rows1 rows2 : List (List PyVal)),
      CopyTool.insert_sql { t with rows := rows1 } =
        CopyTool.insert_sql { t with rows := rows2 }) ∧
    (∀ delOk : String → Bool,
      ∀ s ∈ (PestDataAnalyzer.clear_database delOk).filterMap
          PestDataAnalyzer.actSql,
        s ∈ PestDataAnalyzer.tables.map (fun t => "DELETE FROM " ++ t)) := by
  refine ⟨?_, ?_, fun t rows1 rows2 => rfl, ?_⟩
  · cases htgt : PestDataAnalyzer.mapE PestDataAnalyzer.targetInsert
        (PestDataAnalyzer.dedupKey id
          (df1.map (fun r => r.TARGET_PROXY))) with
    | error e => simp [PestDataAnalyzer.create_nodes, htgt] at h1
    | ok targetActs =>
      simp only [PestDataAnalyzer.create_nodes, htgt, Except.ok.injEq] at h1
      intro s hs
      rw [← h1] at hs
      obtain ⟨a, ha, hsa⟩ := List.mem_filterMap.mp hs
      simp only [List.mem_append, List.mem_singleton] at ha
      rcases ha with ((((ha | ha) | ha) | ha) | ha) | ha
      · obtain ⟨x, _, hx⟩ := List.mem_map.mp ha
        rw [← hx] at hsa
        simp only [PestDataAnalyzer.actSql, Option.some.injEq] at hsa
        rw [← hsa]
        simp [PestDataAnalyzer.nodeTemplates]
      · obtain ⟨x, _, hx⟩ := List.mem_map.mp ha
        rw [← hx] at hsa
        simp only [PestDataAnalyzer.actSql, Option.some.injEq] at hsa
        rw [← hsa]
        simp [PestDataAnalyzer.nodeTemplates]
      · obtain ⟨x, _, hx⟩ := List.mem_map.mp ha
        rw [← hx] at hsa
        simp only [PestDataAnalyzer.actSql, Option.some.injEq] at hsa
        rw [← hsa]
        simp [PestDataAnalyzer.nodeTemplates]
      · obtain ⟨x, _, hx⟩ :=
          mapE_ok_mem PestDataAnalyzer.targetInsert _ targetActs htgt a ha
        rw [targetInsert_sql x a hx, Option.some.injEq] at hsa
        rw [← hsa]
        simp [PestDataAnalyzer.nodeTemplates]
      · obtain ⟨x, _, hx⟩ := List.mem_map.mp ha
        rw [← hx] at hsa
        simp only [PestDataAnalyzer.actSql, Option.some.injEq] at hsa
        rw [← hsa]
        simp [PestDataAnalyzer.nodeTemplates]
      · rw [ha] at hsa
        simp [PestDataAnalyzer.actSql] at hsa
  · cases hins : PestDataAnalyzer.mapE PestDataAnalyzer.inspectionInsert df2 with
    | error e =>
      simp [PestDataAnalyzer.create_inspections_and_relationships, hins] at h2
    | ok insActs =>
      cases hres : PestDataAnalyzer.mapE PestDataAnalyzer.resultInsert
          (PestDataAnalyzer.dedupKey
            (fun r => (r.ENTY_ID, r.TARGET_PROXY)) df2) with
      | error e =>
        simp [PestDataAnalyzer.create_inspections_and_relationships, hins,
          hres] at h2
      | ok resultActs =>
        simp only [PestDataAnalyzer.create_inspections_and_relationships,
          hins, hres, Except.ok.injEq] at h2
        intro s hs
        rw [← h2] at hs
        obtain ⟨a, ha, hsa⟩ := List.mem_filterMap.mp hs
        simp only [List.mem_append, List.mem_cons, List.mem_singleton,
          List.not_mem_nil, or_false] at ha
        rcases ha with ((((((ha | ha) | ha) | ha) | ha) | ha) | ha)
        · obtain ⟨x, _, hx⟩ :=
            mapE_ok_mem PestDataAnalyzer.inspectionInsert _ insActs hins a ha
          rw [inspectionInsert_sql x a hx, Option.some.injEq] at hsa
          rw [← hsa]
          simp [PestDataAnalyzer.relTemplates]
        · rw [ha] at hsa
          simp [PestDataAnalyzer.actSql] at hsa
        · obtain ⟨x, _, hx⟩ := List.mem_map.mp ha
          rw [← hx] at hsa
          simp only [PestDataAnalyzer.actSql, Option.some.injEq] at hsa
          rw [← hsa]
          simp [PestDataAnalyzer.relTemplates]
        · obtain ⟨x, _, hx⟩ := List.mem_map.mp ha
          rw [← hx] at hsa
          simp only [PestDataAnalyzer.actSql, Option.some.injEq] at hsa
          rw [← hsa]
          simp [PestDataAnalyzer.relTemplates]
        · obtain ⟨x, _, hx⟩ := List.mem_map.mp ha
          rw [← hx] at hsa
          simp only [PestDataAnalyzer.actSql, Option.some.injEq] at hsa
          rw [← hsa]
          simp [PestDataAnalyzer.relTemplates]
        · obtain ⟨x, _, hx⟩ :=
            mapE_ok_mem PestDataAnalyzer.resultInsert _ resultActs hres a ha
          rw [resultInsert_sql x a hx, Option.some.injEq] at hsa
          rw [← hsa]
          simp [PestDataAnalyzer.relTemplates]
        · rw [ha] at hsa
          simp [PestDataAnalyzer.actSql] at hsa
  · intro delOk s hs
    simpa [PestDataAnalyzer.clear_database, PestDataAnalyzer.tables,
      PestDataAnalyzer.actSql] using hs

/-- C7 witness: the theorem applied to the concrete cleaned rows `wOut`
and the traces `wNodeActs` and `wRelActs` they produce. -/
theorem sql_texts_fixed_templates_witness :
    PestDataAnalyzer.create_nodes wOut = Except.ok wNodeActs ∧
    PestDataAnalyzer.create_inspections_and_relationships wOut =
      Except.ok wRelActs ∧
    ((∀ s ∈ wNodeActs.filterMap PestDataAnalyzer.actSql,
       s ∈ PestDataAnalyzer.nodeTemplates) ∧
     (∀ s ∈ wRelActs.filterMap PestDataAnalyzer.actSql,
       s ∈ PestDataAnalyzer.relTemplates) ∧
     (∀ (t : CopyTool.SourceTable) (rows1 rows2 : List (List PyVal)),
       CopyTool.insert_sql { t with rows := rows1 } =
         CopyTool.insert_sql { t with rows := rows2 }) ∧
     (∀ delOk : String → Bool,
       ∀ s ∈ (PestDataAnalyzer.clear_database delOk).filterMap
           PestDataAnalyzer.actSql,
         s ∈ PestDataAnalyzer.tables.map (fun t => "DELETE FROM " ++ t))) :=
  ⟨rfl, rfl, sql_texts_fixed_templates wOut wOut wNodeActs wRelActs rfl rfl⟩

end OracleGraph
